import Mathlib

/-!
Shallow embedding of the prediction_market_data repository (a set of Python
scripts that load prediction-market price/volume JSON data and render charts)
together with proofs of the numerical and behavioural properties claimed by
its specification.

Modelling conventions:
- Python floats are modelled as exact reals where a square root occurs
  (Pearson correlation) and as rationals elsewhere.
- Python `None` is modelled by `Option.none`; a Python list value `v` returned
  by a function that may also return `None` is modelled by `some v`.
- A Python function that can raise is modelled with `Except`.
- Date strings are modelled as `String` with its lexicographic order, which
  agrees with chronological order on the fixed-width ISO dates the scripts use.
-/

namespace F1Correlation

/-- The sample mean `sum(l) / n` as computed inside `calculate_correlation`
of src/f1_correlation.py.  The source computes both `mean_p` and `mean_v`
with `n = len(prices)`, so `n` is passed explicitly. -/
noncomputable def corrMean (n : ℕ) (l : List ℝ) : ℝ := l.sum / n

/-- The covariance term of `calculate_correlation`:
`sum((p - mean_p) * (v - mean_v) for p, v in zip(prices, volumes)) / n`. -/
noncomputable def corrCov (n : ℕ) (prices volumes : List ℝ) : ℝ :=
  (((prices.zip volumes).map
    (fun pv => (pv.1 - corrMean n prices) * (pv.2 - corrMean n volumes))).sum) / n

/-- The variance expression `sum((x - mean)**2 for x in l) / n` whose square
root is the `std_p` / `std_v` term of `calculate_correlation`. -/
noncomputable def corrVar (n : ℕ) (l : List ℝ) : ℝ :=
  ((l.map (fun x => (x - corrMean n l) ^ 2)).sum) / n

/-- The standard-deviation term `(sum((x - mean)**2 for x in l) / n) ** 0.5`
of `calculate_correlation`.  The radicand is non-negative, so Python's
`** 0.5` is the real square root. -/
noncomputable def corrStd (n : ℕ) (l : List ℝ) : ℝ :=
  Real.sqrt (corrVar n l)

/-- `calculate_correlation(prices, volumes)` from src/f1_correlation.py:
returns 0 when there are fewer than two points, and performs the division
`cov / (std_p * std_v)` only when both standard deviations are positive,
returning 0 otherwise. -/
noncomputable def calculate_correlation (prices volumes : List ℝ) : ℝ :=
  if prices.length < 2 then 0
  else if 0 < corrStd prices.length prices ∧ 0 < corrStd prices.length volumes then
    corrCov prices.length prices volumes /
      (corrStd prices.length prices * corrStd prices.length volumes)
  else 0

/-- Mapping a binary function over the zip of a list with itself is mapping
its diagonal. -/
theorem zip_self_map {α β : Type} (f : α → α → β) (l : List α) :
    (l.zip l).map (fun p => f p.1 p.2) = l.map (fun x => f x x) := by
  induction l with
  | nil => rfl
  | cons a t ih => simp [List.zip_cons_cons, ih]

/-- On the diagonal, the covariance term coincides with the variance term. -/
theorem corrCov_self (n : ℕ) (xs : List ℝ) : corrCov n xs xs = corrVar n xs := by
  unfold corrCov corrVar
  congr 1
  rw [zip_self_map (fun a b => (a - corrMean n xs) * (b - corrMean n xs)) xs]
  have h : (fun x : ℝ => (x - corrMean n xs) * (x - corrMean n xs)) =
      fun x : ℝ => (x - corrMean n xs) ^ 2 := by
    funext x
    ring
  rw [h]

/-- The variance term is non-negative: it is a sum of squares divided by a
natural number. -/
theorem corrVar_nonneg (n : ℕ) (l : List ℝ) : 0 ≤ corrVar n l := by
  unfold corrVar
  apply div_nonneg
  · apply List.sum_nonneg
    intro x hx
    rcases List.mem_map.1 hx with ⟨y, _, rfl⟩
    positivity
  · exact Nat.cast_nonneg n

/-- A nonzero standard deviation forces a nonzero (hence positive) variance. -/
theorem corrVar_ne_zero_of_std_ne_zero {n : ℕ} {l : List ℝ}
    (h : corrStd n l ≠ 0) : corrVar n l ≠ 0 := by
  intro h0
  exact h (by simp [corrStd, h0])

end F1Correlation

namespace SuperbowlComparison

/-- The inline Pearson-correlation computation of
`create_price_volume_correlation_chart` in src/superbowl_comparison.py
(lines 330-336).  It is the same arithmetic as
`F1Correlation.calculate_correlation` but with no guard on the length: with
`n = 0` the Python expression `sum(prices) / n` raises `ZeroDivisionError`,
modelled as `none`; otherwise the guarded division
`cov / (std_p * std_v) if std_p > 0 and std_v > 0 else 0` is returned. -/
noncomputable def correlation_inline (prices volumes : List ℝ) : Option ℝ :=
  if prices.length = 0 then none
  else if 0 < F1Correlation.corrStd prices.length prices ∧
          0 < F1Correlation.corrStd prices.length volumes then
    some (F1Correlation.corrCov prices.length prices volumes /
      (F1Correlation.corrStd prices.length prices *
        F1Correlation.corrStd prices.length volumes))
  else some 0

end SuperbowlComparison

open F1Correlation in
/-- C1 counterexample: the constant series `[1, 1]` has zero standard
deviation, so its self-correlation as computed by `calculate_correlation`
is 0, not 1 — refuting the claim that the self-correlation of every series
equals 1. -/
theorem c1_counterexample :
    F1Correlation.calculate_correlation [(1 : ℝ), 1] [(1 : ℝ), 1] ≠ 1 := by
  have hvar : corrVar 2 [(1 : ℝ), 1] = 0 := by
    unfold corrVar corrMean
    norm_num
  have hstd : corrStd 2 [(1 : ℝ), 1] = 0 := by
    simp [corrStd, hvar]
  unfold calculate_correlation
  norm_num [hstd]

open F1Correlation in
/-- C1 (amended): for every series of length at least 2 whose standard
deviation is nonzero (a non-constant series), the self-correlation computed
by `calculate_correlation` — and by the equivalent inline formula of
src/superbowl_comparison.py — equals 1.  (Shorter or constant series
yield 0 instead.) -/
theorem self_correlation_eq_one (xs : List ℝ) (h2 : 2 ≤ xs.length)
    (hstd : corrStd xs.length xs ≠ 0) :
    calculate_correlation xs xs = 1 ∧
    SuperbowlComparison.correlation_inline xs xs = some 1 := by
  have hvar0 : 0 ≤ corrVar xs.length xs := corrVar_nonneg _ _
  have hstdpos : 0 < corrStd xs.length xs :=
    lt_of_le_of_ne (Real.sqrt_nonneg _) (Ne.symm hstd)
  have hvarne : corrVar xs.length xs ≠ 0 := corrVar_ne_zero_of_std_ne_zero hstd
  have hsq : corrStd xs.length xs * corrStd xs.length xs = corrVar xs.length xs :=
    Real.mul_self_sqrt hvar0
  have hval : corrCov xs.length xs xs /
      (corrStd xs.length xs * corrStd xs.length xs) = 1 := by
    rw [corrCov_self, hsq]
    exact div_self hvarne
  constructor
  · unfold calculate_correlation
    rw [if_neg (by omega), if_pos ⟨hstdpos, hstdpos⟩, hval]
  · unfold SuperbowlComparison.correlation_inline
    rw [if_neg (by omega), if_pos ⟨hstdpos, hstdpos⟩, hval]

/-- Witness for the amended C1 at the concrete series `[0, 2]`
(mean 1, variance 1, standard deviation 1). -/
theorem self_correlation_eq_one_witness :
    F1Correlation.calculate_correlation [(0 : ℝ), 2] [(0 : ℝ), 2] = 1 ∧
    SuperbowlComparison.correlation_inline [(0 : ℝ), 2] [(0 : ℝ), 2] = some 1 := by
  have hvar : F1Correlation.corrVar 2 [(0 : ℝ), 2] = 1 := by
    unfold F1Correlation.corrVar F1Correlation.corrMean
    norm_num
  have hstd : F1Correlation.corrStd 2 [(0 : ℝ), 2] ≠ 0 := by
    simp [F1Correlation.corrStd, hvar]
  exact self_correlation_eq_one [(0 : ℝ), 2] (by norm_num) hstd

open F1Correlation in
/-- C9: `calculate_correlation` is total and never divides by zero.  For every
pair of equal-length lists it returns 0 when the lists have fewer than two
elements, returns 0 when either standard deviation is zero, and performs the
division `cov / (std_p * std_v)` exactly when both standard deviations are
nonzero (equivalently, strictly positive) and the length is at least 2. -/
theorem calculate_correlation_cases (prices volumes : List ℝ)
    (hlen : prices.length = volumes.length) :
    (prices.length < 2 → calculate_correlation prices volumes = 0) ∧
    (corrStd prices.length prices = 0 ∨ corrStd prices.length volumes = 0 →
      calculate_correlation prices volumes = 0) ∧
    (2 ≤ prices.length → corrStd prices.length prices ≠ 0 →
      corrStd prices.length volumes ≠ 0 →
      calculate_correlation prices volumes =
        corrCov prices.length prices volumes /
          (corrStd prices.length prices * corrStd prices.length volumes)) := by
  refine ⟨fun hlt => ?_, fun hzero => ?_, fun h2 hp hv => ?_⟩
  · unfold calculate_correlation
    rw [if_pos hlt]
  · unfold calculate_correlation
    by_cases hlt : prices.length < 2
    · rw [if_pos hlt]
    · rw [if_neg hlt, if_neg]
      rintro ⟨hp, hv⟩
      rcases hzero with h | h
      · exact absurd h (ne_of_gt hp)
      · exact absurd h (ne_of_gt hv)
  · have hppos : 0 < corrStd prices.length prices :=
      lt_of_le_of_ne (Real.sqrt_nonneg _) (Ne.symm hp)
    have hvpos : 0 < corrStd prices.length volumes :=
      lt_of_le_of_ne (Real.sqrt_nonneg _) (Ne.symm hv)
    unfold calculate_correlation
    rw [if_neg (by omega), if_pos ⟨hppos, hvpos⟩]

/-- Witness for C9 at the concrete equal-length pair `[0, 2]`, `[0, 2]`
(both standard deviations equal 1). -/
theorem calculate_correlation_cases_witness :
    F1Correlation.calculate_correlation [(0 : ℝ), 2] [(0 : ℝ), 2] =
      F1Correlation.corrCov 2 [(0 : ℝ), 2] [(0 : ℝ), 2] /
        (F1Correlation.corrStd 2 [(0 : ℝ), 2] *
          F1Correlation.corrStd 2 [(0 : ℝ), 2]) := by
  have hvar : F1Correlation.corrVar 2 [(0 : ℝ), 2] = 1 := by
    unfold F1Correlation.corrVar F1Correlation.corrMean
    norm_num
  have hstd : F1Correlation.corrStd 2 [(0 : ℝ), 2] ≠ 0 := by
    simp [F1Correlation.corrStd, hvar]
  exact (calculate_correlation_cases [(0 : ℝ), 2] [(0 : ℝ), 2] rfl).2.2
    (by norm_num) hstd hstd

namespace DuneDataFetcher

/-- The environment an `execute_sql_query` run observes: the HTTP status code
and body of the `POST /query/execute` request, the `state` field of the i-th
status poll (absent fields give `none`, as Python's `status.get("state")`
gives `None`), and the JSON of the results endpoint (kept abstract in `α`). -/
structure DuneEnv (α : Type) where
  execute_status : ℕ
  execute_body : String
  poll_state : ℕ → Option String
  results : α

/-- A poll response state that exits the polling loop of
`execute_sql_query` in src/dune_data_fetcher.py. -/
def terminalState (s : Option String) : Prop :=
  s = some "QUERY_STATE_COMPLETED" ∨
  s = some "QUERY_STATE_FAILED" ∨
  s = some "QUERY_STATE_CANCELLED"

instance (s : Option String) : Decidable (terminalState s) := by
  unfold terminalState
  infer_instance

/-- The `for i in range(60)` polling loop of `execute_sql_query`, started at
poll index `i` with `fuel` iterations remaining.  Returns the result
(`some results` on `QUERY_STATE_COMPLETED`, `none` on
`QUERY_STATE_FAILED` / `QUERY_STATE_CANCELLED` or when the fuel runs out,
i.e. "Query timed out") together with the number of status polls performed. -/
def poll_from {α : Type} (env : DuneEnv α) : ℕ → ℕ → Option α × ℕ
  | _, 0 => (none, 0)
  | i, fuel + 1 =>
    if env.poll_state i = some "QUERY_STATE_COMPLETED" then (some env.results, 1)
    else if env.poll_state i = some "QUERY_STATE_FAILED" ∨
            env.poll_state i = some "QUERY_STATE_CANCELLED" then (none, 1)
    else
      let r := poll_from env (i + 1) fuel
      (r.1, r.2 + 1)

/-- `execute_sql_query` from src/dune_data_fetcher.py: on a non-200 response
to the execute request it prints the error and returns `None`; otherwise it
polls the execution status up to 60 times. -/
def execute_sql_query {α : Type} (env : DuneEnv α) : Option α :=
  if env.execute_status ≠ 200 then none
  else (poll_from env 0 60).1

/-- The polling loop performs at most `fuel` status polls. -/
theorem poll_from_count_le {α : Type} (env : DuneEnv α) :
    ∀ fuel i, (poll_from env i fuel).2 ≤ fuel := by
  intro fuel
  induction fuel with
  | zero => intro i; simp [poll_from]
  | succ f ih =>
    intro i
    unfold poll_from
    split
    · simp
    · split
      · simp
      · simpa using Nat.succ_le_succ (ih (i + 1))

/-- Skipping a run of non-terminal polls does not change the loop's result. -/
theorem poll_from_result_shift {α : Type} (env : DuneEnv α) :
    ∀ (k fuel i : ℕ), k < fuel →
      (∀ j, j < k → ¬ terminalState (env.poll_state (i + j))) →
      (poll_from env i fuel).1 = (poll_from env (i + k) (fuel - k)).1 := by
  intro k
  induction k with
  | zero => intro fuel i _ _; simp
  | succ k ih =>
    intro fuel i hk hj
    match fuel, hk with
    | f + 1, _ =>
      have h0 : ¬ terminalState (env.poll_state i) := by
        have := hj 0 (Nat.succ_pos k)
        simpa using this
      have hc : ¬ env.poll_state i = some "QUERY_STATE_COMPLETED" := by
        intro h; exact h0 (Or.inl h)
      have hfc : ¬ (env.poll_state i = some "QUERY_STATE_FAILED" ∨
          env.poll_state i = some "QUERY_STATE_CANCELLED") := by
        rintro (h | h)
        · exact h0 (Or.inr (Or.inl h))
        · exact h0 (Or.inr (Or.inr h))
      have hstep : (poll_from env i (f + 1)).1 = (poll_from env (i + 1) f).1 := by
        conv_lhs => rw [poll_from]
        rw [if_neg hc, if_neg hfc]
      rw [hstep]
      have hrec := ih f (i + 1) (by omega) (fun j hjk => by
        have := hj (j + 1) (by omega)
        have heq : i + (j + 1) = i + 1 + j := by omega
        rwa [heq] at this)
      have h1 : i + 1 + k = i + (k + 1) := by omega
      have h2 : f - k = f + 1 - (k + 1) := by omega
      rw [hrec, h1, h2]

/-- If every poll the loop can make is non-terminal, the loop times out
with `none`. -/
theorem poll_from_none_of_no_terminal {α : Type} (env : DuneEnv α) :
    ∀ fuel i, (∀ j, j < fuel → ¬ terminalState (env.poll_state (i + j))) →
      (poll_from env i fuel).1 = none := by
  intro fuel
  induction fuel with
  | zero => intro i _; simp [poll_from]
  | succ f ih =>
    intro i hj
    have h0 : ¬ terminalState (env.poll_state i) := by
      have := hj 0 (Nat.succ_pos f)
      simpa using this
    have hc : ¬ env.poll_state i = some "QUERY_STATE_COMPLETED" := by
      intro h; exact h0 (Or.inl h)
    have hfc : ¬ (env.poll_state i = some "QUERY_STATE_FAILED" ∨
        env.poll_state i = some "QUERY_STATE_CANCELLED") := by
      rintro (h | h)
      · exact h0 (Or.inr (Or.inl h))
      · exact h0 (Or.inr (Or.inr h))
    unfold poll_from
    rw [if_neg hc, if_neg hfc]
    exact ih (i + 1) (fun j hjf => by
      have := hj (j + 1) (by omega)
      have heq : i + (j + 1) = i + 1 + j := by omega
      rwa [heq] at this)

end DuneDataFetcher

namespace KalshiDataFetcher

/-- One raw candlestick as returned by the Kalshi API (the fields
`fetch_candlesticks` and `process_candlesticks` read; prices in cents). -/
structure Candle where
  end_period_ts : ℕ
  price_open : ℚ
  price_high : ℚ
  price_low : ℚ
  price_close : ℚ
  volume : ℚ
  open_interest : ℚ
deriving DecidableEq

/-- The environment a `fetch_candlesticks` call observes: the HTTP status
code and body of the GET request, and the `candlesticks` field of the JSON
body on success (`data.get("candlesticks", [])`). -/
structure KalshiEnv where
  status_code : ℕ
  body : String
  candlesticks : List Candle

/-- `fetch_candlesticks` from src/kalshi_data_fetcher.py.  The result type
`Option (List Candle)` distinguishes Python `None` (`none`) from a returned
list `v` (`some v`): on a non-200 status the function prints the error and
returns the empty list - never `None`. -/
def fetch_candlesticks (env : KalshiEnv) : Option (List Candle) :=
  if env.status_code ≠ 200 then some []
  else some env.candlesticks

/-- One processed daily record as built by `process_candlesticks`
(prices converted from cents to the 0-1 scale). -/
structure KDaily where
  date : String
  price : ℚ
  high : ℚ
  low : ℚ
  open_price : ℚ
  daily_volume : ℚ
  open_interest : ℚ
deriving DecidableEq

/-- The total volume computed in `main` of src/kalshi_data_fetcher.py:
`sum(d["daily_volume"] for d in daily_data)`. -/
def total_volume (daily_data : List KDaily) : ℚ :=
  (daily_data.map (fun d => d.daily_volume)).sum

end KalshiDataFetcher

/-- C2 counterexample: on a non-200 response, `fetch_candlesticks` returns
the empty list (Python `[]`), not `None` — refuting the claim that both
fetchers short-circuit to `None`. -/
theorem c2_counterexample :
    KalshiDataFetcher.fetch_candlesticks ⟨404, "not found", []⟩ = some [] ∧
    (some ([] : List KalshiDataFetcher.Candle) ≠ none) := by
  constructor
  · simp [KalshiDataFetcher.fetch_candlesticks]
  · simp

/-- C2 (amended): on a non-200 HTTP status the fetcher prints the error and
short-circuits with no retry and no partial result: `execute_sql_query`
returns `None`, and `fetch_candlesticks` returns the empty list. -/
theorem http_error_short_circuit {α : Type} (env : DuneDataFetcher.DuneEnv α)
    (kenv : KalshiDataFetcher.KalshiEnv)
    (hd : env.execute_status ≠ 200) (hk : kenv.status_code ≠ 200) :
    DuneDataFetcher.execute_sql_query env = none ∧
    KalshiDataFetcher.fetch_candlesticks kenv = some [] := by
  constructor
  · simp [DuneDataFetcher.execute_sql_query, hd]
  · simp [KalshiDataFetcher.fetch_candlesticks, hk]

/-- Witness for the amended C2 at status code 404 on both fetchers. -/
theorem http_error_short_circuit_witness :
    DuneDataFetcher.execute_sql_query
      (⟨404, "err", fun _ => none, 0⟩ : DuneDataFetcher.DuneEnv ℕ) = none ∧
    KalshiDataFetcher.fetch_candlesticks ⟨404, "err", []⟩ = some [] :=
  http_error_short_circuit ⟨404, "err", fun _ => none, 0⟩ ⟨404, "err", []⟩
    (by decide) (by decide)

open DuneDataFetcher in
/-- C5: after a successful submission, the Dune polling loop of
`execute_sql_query` performs at most 60 status polls; it returns the results
JSON when the first terminal state a poll observes is
`QUERY_STATE_COMPLETED`, returns `None` immediately when the first terminal
state observed is `QUERY_STATE_FAILED` or `QUERY_STATE_CANCELLED`, and
returns `None` (timeout) when none of the 60 polls observes a terminal
state.  The loop is structurally recursive on its fuel, so the function
terminates in every case. -/
theorem dune_poll_loop_spec {α : Type} (env : DuneDataFetcher.DuneEnv α)
    (h200 : env.execute_status = 200) :
    (poll_from env 0 60).2 ≤ 60 ∧
    (∀ i, i < 60 → env.poll_state i = some "QUERY_STATE_COMPLETED" →
      (∀ j, j < i → ¬ terminalState (env.poll_state j)) →
      execute_sql_query env = some env.results) ∧
    (∀ i, i < 60 →
      (env.poll_state i = some "QUERY_STATE_FAILED" ∨
        env.poll_state i = some "QUERY_STATE_CANCELLED") →
      (∀ j, j < i → ¬ terminalState (env.poll_state j)) →
      execute_sql_query env = none) ∧
    ((∀ i, i < 60 → ¬ terminalState (env.poll_state i)) →
      execute_sql_query env = none) := by
  have hexec : execute_sql_query env = (poll_from env 0 60).1 := by
    simp [execute_sql_query, h200]
  refine ⟨poll_from_count_le env 60 0, fun i hi hc hfirst => ?_,
    fun i hi hfc hfirst => ?_, fun hnone => ?_⟩
  · have hshift := poll_from_result_shift env i 60 0 hi
      (fun j hj => by simpa using hfirst j hj)
    obtain ⟨m, hm⟩ : ∃ m, 60 - i = m + 1 := ⟨60 - i - 1, by omega⟩
    rw [hexec, hshift, hm]
    simp only [Nat.zero_add]
    rw [poll_from, if_pos hc]
  · have hshift := poll_from_result_shift env i 60 0 hi
      (fun j hj => by simpa using hfirst j hj)
    obtain ⟨m, hm⟩ : ∃ m, 60 - i = m + 1 := ⟨60 - i - 1, by omega⟩
    have hnc : ¬ env.poll_state i = some "QUERY_STATE_COMPLETED" := by
      rcases hfc with h | h <;> rw [h] <;> decide
    rw [hexec, hshift, hm]
    simp only [Nat.zero_add]
    rw [poll_from, if_neg hnc, if_pos hfc]
  · rw [hexec]
    exact poll_from_none_of_no_terminal env 60 0
      (fun j hj => by simpa using hnone j hj)

/-- A concrete Dune environment for the C5 witness: the execute request
succeeds, the first three polls are pending and the fourth completes. -/
def dunePollEnvW : DuneDataFetcher.DuneEnv ℕ :=
  ⟨200, "", fun i => if i = 3 then some "QUERY_STATE_COMPLETED"
    else some "QUERY_STATE_PENDING", 42⟩

/-- Witness for C5: in `dunePollEnvW` the loop polls at most 60 times and
returns the results once poll 3 reports completion. -/
theorem dune_poll_loop_spec_witness :
    (DuneDataFetcher.poll_from dunePollEnvW 0 60).2 ≤ 60 ∧
    DuneDataFetcher.execute_sql_query dunePollEnvW = some 42 := by
  refine ⟨(dune_poll_loop_spec dunePollEnvW rfl).1, ?_⟩
  exact (dune_poll_loop_spec dunePollEnvW rfl).2.1 3 (by decide)
    (by decide) (by decide)

namespace ComparisonKalshiPolymarket

/-- One daily record of the comparison script's inputs; the script reads the
`date`, `price` and `daily_volume` keys. -/
structure DayRec where
  date : String
  price : ℚ
  daily_volume : ℚ
deriving DecidableEq

/-- The dict comprehension `{d["date"]: d for d in data}` of
`get_matching_dates`: lookup by date, where a later record with the same
date overwrites an earlier one. -/
def dictOf (data : List DayRec) (key : String) : Option DayRec :=
  (data.filter (fun d => d.date = key)).getLast?

/-- `get_matching_dates(kalshi_data, polymarket_data)` from
src/comparison_kalshi_polymarket.py: builds the two date-keyed dicts and
returns `sorted(set(kalshi_dates.keys()) & set(polymarket_dates.keys()))`
together with the dicts.  The key sets of the dicts are the sets of dates
occurring in the respective lists, so the intersection is modelled on the
`Finset`s of dates. -/
def get_matching_dates (kalshi_data polymarket_data : List DayRec) :
    List String × (String → Option DayRec) × (String → Option DayRec) :=
  (Finset.sort (fun a b => a ≤ b)
    ((kalshi_data.map (fun d => d.date)).toFinset ∩
      (polymarket_data.map (fun d => d.date)).toFinset),
   dictOf kalshi_data, dictOf polymarket_data)

end ComparisonKalshiPolymarket

open ComparisonKalshiPolymarket in
/-- C3: for every pair of record lists, the first component of
`get_matching_dates` is exactly the sorted set intersection of the date keys:
a date is in `common_dates` iff it occurs as a date in both inputs, each date
appears at most once, and the list is strictly ascending. -/
theorem get_matching_dates_common (a b : List DayRec) :
    (∀ d : String, d ∈ (get_matching_dates a b).1 ↔
      (d ∈ a.map (fun r => r.date) ∧ d ∈ b.map (fun r => r.date))) ∧
    (get_matching_dates a b).1.Nodup ∧
    List.Sorted (fun x y => x < y) (get_matching_dates a b).1 := by
  refine ⟨fun d => ?_, ?_, ?_⟩
  · unfold get_matching_dates
    simp [Finset.mem_sort, List.mem_toFinset]
  · unfold get_matching_dates
    dsimp only
    exact Finset.sort_nodup (fun a b => a ≤ b) _
  · unfold get_matching_dates
    dsimp only
    exact Finset.sort_sorted_lt _

open ComparisonKalshiPolymarket in
/-- C4: the date intersection is symmetric and order-independent: for record
lists with unique dates, swapping the two arguments of `get_matching_dates`
gives the same `common_dates`, and permuting the records inside either input
list leaves `common_dates` unchanged. -/
theorem get_matching_dates_symm_perm (a b a2 b2 : List DayRec)
    (ha : (a.map (fun r => r.date)).Nodup)
    (hb : (b.map (fun r => r.date)).Nodup)
    (hpa : a.Perm a2) (hpb : b.Perm b2) :
    (get_matching_dates a b).1 = (get_matching_dates b a).1 ∧
    (get_matching_dates a2 b2).1 = (get_matching_dates a b).1 := by
  constructor
  · unfold get_matching_dates
    rw [Finset.inter_comm]
  · unfold get_matching_dates
    rw [List.toFinset_eq_of_perm _ _ (List.Perm.map (fun r => r.date) hpa),
      List.toFinset_eq_of_perm _ _ (List.Perm.map (fun r => r.date) hpb)]

/-- Witness for C4 on concrete two-record lists and a genuine transposition
of each list. -/
theorem get_matching_dates_symm_perm_witness :
    (ComparisonKalshiPolymarket.get_matching_dates
        [⟨"a", 1, 2⟩, ⟨"b", 3, 4⟩] [⟨"b", 5, 6⟩, ⟨"c", 7, 8⟩]).1 =
      (ComparisonKalshiPolymarket.get_matching_dates
        [⟨"b", 5, 6⟩, ⟨"c", 7, 8⟩] [⟨"a", 1, 2⟩, ⟨"b", 3, 4⟩]).1 ∧
    (ComparisonKalshiPolymarket.get_matching_dates
        [⟨"b", 3, 4⟩, ⟨"a", 1, 2⟩] [⟨"c", 7, 8⟩, ⟨"b", 5, 6⟩]).1 =
      (ComparisonKalshiPolymarket.get_matching_dates
        [⟨"a", 1, 2⟩, ⟨"b", 3, 4⟩] [⟨"b", 5, 6⟩, ⟨"c", 7, 8⟩]).1 :=
  get_matching_dates_symm_perm
    [⟨"a", 1, 2⟩, ⟨"b", 3, 4⟩] [⟨"b", 5, 6⟩, ⟨"c", 7, 8⟩]
    [⟨"b", 3, 4⟩, ⟨"a", 1, 2⟩] [⟨"c", 7, 8⟩, ⟨"b", 5, 6⟩]
    (by decide) (by decide) (by decide) (by decide)

/-- An error a data-loading function can raise; the scripts only ever hit
`FileNotFoundError` when a cache file is missing. -/
inductive LoadError : Type
  | fileNotFound
deriving DecidableEq

/-- A filesystem modelled as a map from paths to (parsed) file contents;
`none` means the path does not exist. -/
def FileSystem (α : Type) : Type := String → Option α

namespace CorrelationAnalysis

/-- The `DATA_FILE` constant of src/correlation_analysis.py. -/
def DATA_FILE : String :=
  "/Users/wsong/workspace/prediciton-mm/.cache/daily_price_volume.json"

/-- `load_data` of src/correlation_analysis.py: `open(DATA_FILE)` raises
(FileNotFoundError) when the file is missing, and otherwise the parsed JSON
is returned. -/
def load_data {α : Type} (fs : FileSystem α) : Except LoadError α :=
  match fs DATA_FILE with
  | none => Except.error LoadError.fileNotFound
  | some v => Except.ok v

/-- One input record of `parse_market_data` (a `daily_data` entry with keys
`date`, `price`, `daily_volume` and optional `event`). -/
structure RawDaily where
  date : String
  price : ℚ
  daily_volume : ℚ
  event : Option String
deriving DecidableEq

/-- One row of the DataFrame built by `parse_market_data` (the pandas
derived columns `price_change`, `price_change_pct`, `volume_change` and
`volume_ma7` are whole-column diffs and rolling means added afterwards;
they read only the `price` and `volume` columns and are modelled separately
below). -/
structure ParsedRow where
  date : String
  price : ℚ
  probability : ℚ
  volume : ℚ
  volume_millions : ℚ
  event : String
deriving DecidableEq

/-- The record-building loop of `parse_market_data` in
src/correlation_analysis.py followed by `df.sort_values('date')` (sorting
by the parsed datetime coincides with sorting by the ISO date string). -/
def parse_market_data (daily_data : List RawDaily) : List ParsedRow :=
  ((daily_data.map (fun d =>
    ({ date := d.date
       price := d.price
       probability := d.price * 100
       volume := d.daily_volume
       volume_millions := d.daily_volume / 1000000
       event := d.event.getD "" } : ParsedRow))).mergeSort
    (fun a b => decide (a.date ≤ b.date)))

/-- The column `df['price_change'] = df['price'].diff()` of
`parse_market_data`: pairwise differences, `none` (pandas NaN) for the
first row. -/
def price_change (rows : List ParsedRow) : List (Option ℚ) :=
  (List.range rows.length).map (fun i =>
    match i with
    | 0 => none
    | j + 1 => do
      let cur ← rows.get? (j + 1)
      let prev ← rows.get? j
      pure (cur.price - prev.price))

end CorrelationAnalysis

namespace PolymarketDashboard

/-- The `CACHE_DIR` constant of src/polymarket_dashboard.py. -/
def CACHE_DIR : String := "/Users/wsong/workspace/prediciton-mm/.cache"

/-- The `DATA_FILE` constant of src/polymarket_dashboard.py
(`CACHE_DIR / "election_prices_verified.json"`). -/
def DATA_FILE : String := CACHE_DIR ++ "/election_prices_verified.json"

/-- `load_data` of src/polymarket_dashboard.py: explicitly raises
`FileNotFoundError` when `DATA_FILE` does not exist, and otherwise opens
and parses it. -/
def load_data {α : Type} (fs : FileSystem α) : Except LoadError α :=
  if (fs DATA_FILE).isSome then
    match fs DATA_FILE with
    | none => Except.error LoadError.fileNotFound
    | some v => Except.ok v
  else Except.error LoadError.fileNotFound

end PolymarketDashboard

/-- C6: for every missing input cache file, the script's `load_data` raises
rather than returning a default: `correlation_analysis.load_data` errors when
its `DATA_FILE` is absent from the filesystem, and
`polymarket_dashboard.load_data` errors with `FileNotFoundError` when its
`DATA_FILE` is absent. -/
theorem load_data_raises_on_missing {α : Type} (fs1 fs2 : FileSystem α)
    (h1 : fs1 CorrelationAnalysis.DATA_FILE = none)
    (h2 : fs2 PolymarketDashboard.DATA_FILE = none) :
    CorrelationAnalysis.load_data fs1 = Except.error LoadError.fileNotFound ∧
    PolymarketDashboard.load_data fs2 = Except.error LoadError.fileNotFound := by
  constructor
  · unfold CorrelationAnalysis.load_data
    rw [h1]
  · unfold PolymarketDashboard.load_data
    rw [h2]
    simp

/-- Witness for C6 on the empty filesystem. -/
theorem load_data_raises_on_missing_witness :
    CorrelationAnalysis.load_data (fun _ => (none : Option ℕ)) =
      Except.error LoadError.fileNotFound ∧
    PolymarketDashboard.load_data (fun _ => (none : Option ℕ)) =
      Except.error LoadError.fileNotFound :=
  load_data_raises_on_missing (fun _ => none) (fun _ => none) rfl rfl

namespace F1Correlation

/-- One entry of `daily_data` in the F1 cache file, with the keys
`create_correlation_chart` of src/f1_correlation.py reads. -/
structure F1Daily where
  date : String
  avg_price : ℚ
  daily_volume : ℚ
  trades : ℚ
deriving DecidableEq

/-- The plotted percentages of `create_correlation_chart`:
`prices = [d['avg_price'] * 100 for d in daily]`. -/
def chart_prices (daily : List F1Daily) : List ℚ :=
  daily.map (fun d => d.avg_price * 100)

/-- `total_vol = sum(d['daily_volume'] for d in daily)` from
`create_correlation_chart` of src/f1_correlation.py. -/
def total_vol (daily : List F1Daily) : ℚ :=
  (daily.map (fun d => d.daily_volume)).sum

end F1Correlation

namespace NycMayorAnalysis

/-- One raw market object of the NYC-mayor cache, with the fields
`parse_markets` of src/nyc_mayor_analysis.py reads (JSON-encoded lists
already decoded, numeric fields already coerced as by `float(... or 0)`). -/
structure RawMarket where
  groupItemTitle : Option String
  question : Option String
  id : String
  volume : ℚ
  volume1wk : ℚ
  volume1mo : ℚ
  outcomePrices : List ℚ
  clobTokenIds : List String
  startDate : String
  endDate : String
  closed : Bool
deriving DecidableEq

/-- `name = m.get('groupItemTitle', m.get('question', 'Unknown')[:30])`. -/
def marketName (m : RawMarket) : String :=
  m.groupItemTitle.getD ((m.question.getD "Unknown").take 30)

/-- `yes_price = float(prices[0]) if prices else 0`. -/
def yesPrice (m : RawMarket) : ℚ :=
  m.outcomePrices.headD 0

/-- One row of the DataFrame built by `parse_markets`. -/
structure MarketRow where
  candidate : String
  market_id : String
  volume : ℚ
  volume_millions : ℚ
  volume_1wk : ℚ
  volume_1mo : ℚ
  price : ℚ
  probability_pct : ℚ
  token_id : String
  start_date : String
  end_date : String
  closed : Bool
  winner : Bool
deriving DecidableEq

/-- `parse_markets` of src/nyc_mayor_analysis.py: skips placeholder markets
(names starting with `Person ` or equal to `Other`), builds one row per
remaining market, and sorts by volume in descending order
(`df.sort_values('volume', ascending=False)`). -/
def parse_markets (markets : List RawMarket) : List MarketRow :=
  ((markets.filter (fun m =>
      ¬ ((marketName m).startsWith "Person " ∨ marketName m = "Other"))).map
    (fun m =>
      ({ candidate := marketName m
         market_id := m.id
         volume := m.volume
         volume_millions := m.volume / 1000000
         volume_1wk := m.volume1wk
         volume_1mo := m.volume1mo
         price := yesPrice m
         probability_pct := yesPrice m * 100
         token_id := m.clobTokenIds.headD ""
         start_date := m.startDate
         end_date := m.endDate
         closed := m.closed
         winner := decide (yesPrice m ≥ 99 / 100) } : MarketRow))).mergeSort
    (fun a b => decide (b.volume ≤ a.volume))

/-- The pie-slice values of `create_market_share_chart` in
src/nyc_mayor_analysis.py: the `volume_millions` of the candidates with
`volume_millions > 1`, plus — when the summed volume of the remaining
candidates is positive — one aggregated `Other Candidates` slice. -/
def market_share_values (df : List MarketRow) : List ℚ :=
  let df_filtered := df.filter (fun r => 1 < r.volume_millions)
  let other_vol :=
    ((df.filter (fun r => r.volume_millions ≤ 1)).map
      (fun r => r.volume_millions)).sum
  if 0 < other_vol then
    df_filtered.map (fun r => r.volume_millions) ++ [other_vol]
  else
    df_filtered.map (fun r => r.volume_millions)

/-- The total of the `volume_millions` column, as in the centre annotation
`df["volume_millions"].sum()` of `create_market_share_chart`. -/
def total_volume_millions (df : List MarketRow) : ℚ :=
  (df.map (fun r => r.volume_millions)).sum

end NycMayorAnalysis

/-- C7: for every record with quoted price p on the 0-1 scale, the displayed
probability is exactly 100 p with no other transformation:
`parse_market_data` sets `probability = price * 100`, `f1_correlation` plots
`avg_price * 100`, and `parse_markets` sets `probability_pct = yes_price * 100`. -/
theorem price_scaled_to_probability :
    (∀ md : List CorrelationAnalysis.RawDaily,
      (CorrelationAnalysis.parse_market_data md).map (fun r => r.probability) =
        (CorrelationAnalysis.parse_market_data md).map (fun r => r.price * 100)) ∧
    (∀ daily : List F1Correlation.F1Daily,
      F1Correlation.chart_prices daily =
        daily.map (fun d => d.avg_price * 100)) ∧
    (∀ ms : List NycMayorAnalysis.RawMarket,
      (NycMayorAnalysis.parse_markets ms).map (fun r => r.probability_pct) =
        (NycMayorAnalysis.parse_markets ms).map (fun r => r.price * 100)) := by
  refine ⟨fun md => ?_, fun daily => rfl, fun ms => ?_⟩
  · apply List.map_congr_left
    intro r hr
    unfold CorrelationAnalysis.parse_market_data at hr
    rw [List.mem_mergeSort] at hr
    rcases List.mem_map.1 hr with ⟨d, _, rfl⟩
    rfl
  · apply List.map_congr_left
    intro r hr
    unfold NycMayorAnalysis.parse_markets at hr
    rw [List.mem_mergeSort] at hr
    rcases List.mem_map.1 hr with ⟨m, _, rfl⟩
    rfl

/-- C8: for every list of daily records with non-negative `daily_volume`
values, the computed total volume — `total_volume` in
src/kalshi_data_fetcher.py and `total_vol` in src/f1_correlation.py — is
non-negative. -/
theorem total_volume_nonneg (kal : List KalshiDataFetcher.KDaily)
    (f1 : List F1Correlation.F1Daily)
    (hk : ∀ d ∈ kal, 0 ≤ d.daily_volume)
    (hf : ∀ d ∈ f1, 0 ≤ d.daily_volume) :
    0 ≤ KalshiDataFetcher.total_volume kal ∧
    0 ≤ F1Correlation.total_vol f1 := by
  constructor
  · apply List.sum_nonneg
    intro x hx
    rcases List.mem_map.1 hx with ⟨d, hd, rfl⟩
    exact hk d hd
  · apply List.sum_nonneg
    intro x hx
    rcases List.mem_map.1 hx with ⟨d, hd, rfl⟩
    exact hf d hd

/-- Witness for C8 on concrete one-record lists with non-negative volumes. -/
theorem total_volume_nonneg_witness :
    0 ≤ KalshiDataFetcher.total_volume [⟨"2024-11-01", 1/2, 1, 0, 1/2, 250, 7⟩] ∧
    0 ≤ F1Correlation.total_vol [⟨"2025-06-01", 2/5, 1000, 12⟩] :=
  total_volume_nonneg [⟨"2024-11-01", 1/2, 1, 0, 1/2, 250, 7⟩]
    [⟨"2025-06-01", 2/5, 1000, 12⟩]
    (by intro d hd; simp at hd; rw [hd]; norm_num)
    (by intro d hd; simp at hd; rw [hd]; norm_num)

/-- C10 counterexample: with a candidate of negative volume (allowed by the
claim, which quantifies over every candidate DataFrame), the pie gets no
slice at all — the single candidate has `volume_millions = -1 ≤ 1` and the
aggregated volume is not positive, so no `Other Candidates` slice is added —
and the slice total 0 differs from the column total -1. -/
theorem c10_counterexample :
    (NycMayorAnalysis.market_share_values
        [⟨"Negative", "m1", -1000000, -1, 0, 0, 0, 0, "", "", "", false, false⟩]).sum ≠
      NycMayorAnalysis.total_volume_millions
        [⟨"Negative", "m1", -1000000, -1, 0, 0, 0, 0, "", "", "", false, false⟩] := by
  norm_num [NycMayorAnalysis.market_share_values,
    NycMayorAnalysis.total_volume_millions, List.filter]

/-- Splitting the `volume_millions` column sum at the threshold 1:
the rows kept in the pie plus the rows aggregated into `Other Candidates`
account for the whole column. -/
theorem sum_map_filter_compl (df : List NycMayorAnalysis.MarketRow) :
    ((df.filter (fun r => 1 < r.volume_millions)).map
        (fun r => r.volume_millions)).sum +
      ((df.filter (fun r => r.volume_millions ≤ 1)).map
        (fun r => r.volume_millions)).sum =
      (df.map (fun r => r.volume_millions)).sum := by
  induction df with
  | nil => simp
  | cons r t ih =>
    by_cases h : 1 < r.volume_millions
    · have h2 : ¬ r.volume_millions ≤ 1 := not_le.2 h
      simp [List.filter_cons, h, h2]
      linarith [ih]
    · have h2 : r.volume_millions ≤ 1 := not_lt.1 h
      simp [List.filter_cons, h, h2]
      linarith [ih]

/-- C10 (amended): for every candidate DataFrame whose `volume_millions`
values are all non-negative, the pie-slice values of
`create_market_share_chart` (candidates above 1M plus, when present, the
aggregated `Other Candidates` slice) sum to the total `volume_millions` of
all candidates. -/
theorem market_share_preserves_total (df : List NycMayorAnalysis.MarketRow)
    (hpos : ∀ r ∈ df, 0 ≤ r.volume_millions) :
    (NycMayorAnalysis.market_share_values df).sum =
      NycMayorAnalysis.total_volume_millions df := by
  unfold NycMayorAnalysis.market_share_values NycMayorAnalysis.total_volume_millions
  dsimp only
  by_cases h : 0 < ((df.filter (fun r => r.volume_millions ≤ 1)).map
      (fun r => r.volume_millions)).sum
  · rw [if_pos h, List.sum_append, List.sum_cons, List.sum_nil, add_zero,
      sum_map_filter_compl]
  · have hge : 0 ≤ ((df.filter (fun r => r.volume_millions ≤ 1)).map
        (fun r => r.volume_millions)).sum := by
      apply List.sum_nonneg
      intro x hx
      rcases List.mem_map.1 hx with ⟨d, hd, rfl⟩
      exact hpos d (List.mem_of_mem_filter hd)
    have h0 : ((df.filter (fun r => r.volume_millions ≤ 1)).map
        (fun r => r.volume_millions)).sum = 0 :=
      le_antisymm (not_lt.1 h) hge
    rw [if_neg h, ← sum_map_filter_compl df, h0, add_zero]

/-- Witness for the amended C10 on a concrete two-candidate DataFrame with
one large (2M) and one small (0.5M) candidate. -/
theorem market_share_preserves_total_witness :
    (NycMayorAnalysis.market_share_values
        [⟨"A", "1", 2000000, 2, 0, 0, 0, 0, "", "", "", false, false⟩,
         ⟨"B", "2", 500000, 1/2, 0, 0, 0, 0, "", "", "", false, false⟩]).sum =
      NycMayorAnalysis.total_volume_millions
        [⟨"A", "1", 2000000, 2, 0, 0, 0, 0, "", "", "", false, false⟩,
         ⟨"B", "2", 500000, 1/2, 0, 0, 0, 0, "", "", "", false, false⟩] :=
  market_share_preserves_total
    [⟨"A", "1", 2000000, 2, 0, 0, 0, 0, "", "", "", false, false⟩,
     ⟨"B", "2", 500000, 1/2, 0, 0, 0, 0, "", "", "", false, false⟩]
    (by
      intro r hr
      rcases List.mem_cons.1 hr with h | h
      · rw [h]; norm_num
      · rcases List.mem_cons.1 h with h2 | h2
        · rw [h2]; norm_num
        · simp at h2)
